import Mathlib

/-! Public kernel: validation and accumulation (`kernel/public/common.hpp`).

A shallow embedding of the templates of
`circuits/cpp/src/aztec3/circuits/kernel/public/common.hpp`:

* `validate_state_reads`, `validate_state_transitions`,
  `validate_this_public_call_stack`, `validate_function_execution`,
  `common_validate_kernel_execution`, `common_validate_inputs`: they write
  their findings to a `DummyComposer`, which is passed explicitly;
* `update_public_end_values`: it mutates the circuit outputs it receives by
  reference, so it is a function from the outputs before the call to the
  outputs after it, together with the error that ended the call, if any.  A
  failure does not undo the writes made before it: they were made in the
  object of the caller.

Field elements (`NT::fr`) are only compared with each other and with zero in
this file, so the field is a type parameter `F` with decidable equality and a
zero.  A `std::array<T, N>` is a function `Fin N → T`, and a loop
`for (size_t i = 0; i < N; ++i)` is a left fold over `List.finRange N`.
-/

namespace PublicKernel

/-! ## Constants and primitives the header takes from elsewhere -/

/-- Array sizes.  `STATE_READS_LENGTH` and `STATE_TRANSITIONS_LENGTH` are the
loop bounds named in the header; `PUBLIC_CALL_STACK_SIZE` is `stack.size()`.
The two capacities are the sizes of the arrays `end.public_call_stack` and
`end.state_transitions` of the circuit outputs.  Their values are declared
outside the header, so they are parameters here. -/
structure Sizes where
  STATE_READS_LENGTH : Nat
  STATE_TRANSITIONS_LENGTH : Nat
  PUBLIC_CALL_STACK_SIZE : Nat
  END_PUBLIC_CALL_STACK_CAPACITY : Nat
  END_STATE_TRANSITIONS_CAPACITY : Nat

/-- The hash and tree primitives the header calls: `compute_public_data_tree_index`,
`compute_public_data_tree_value`, `root_from_sibling_path` (all of `hash.hpp`) and
the member `hash()` of a call stack preimage of type `P`.  They are external to
the header and are arbitrary functions here. -/
structure Primitives (F P : Type) where
  compute_public_data_tree_index : F → F → F
  compute_public_data_tree_value : F → F
  root_from_sibling_path : F → F → List F → F
  hash : P → F

/-! ## Data model -/

/-- A read of the public data tree: `state_read.hpp`. -/
structure StateRead (F : Type) where
  storage_slot : F
  current_value : F
deriving DecidableEq, Repr

/-- A write to the public data tree: `state_transition.hpp`. -/
structure StateTransition (F : Type) where
  storage_slot : F
  old_value : F
  new_value : F
deriving DecidableEq, Repr

/-- The tree-ready form of a state transition: `public_data_write.hpp`. -/
structure PublicDataWrite (F : Type) where
  leaf_index : F
  new_value : F
deriving DecidableEq, Repr

/-- Modelled from the spec: `StateRead::is_empty()` is declared in
`state_read.hpp`, which is not part of the sources at hand.  It holds when both
fields equal the empty sentinel, which is zero. -/
def StateRead.is_empty {F : Type} [DecidableEq F] [Zero F] (r : StateRead F) : Bool :=
  r.storage_slot == 0 && r.current_value == 0

/-- Modelled from the spec: `StateTransition::is_empty()` is declared in
`state_transition.hpp`, which is not part of the sources at hand.  It is
analogous to `StateRead::is_empty()`: every field equals zero. -/
def StateTransition.is_empty {F : Type} [DecidableEq F] [Zero F]
    (t : StateTransition F) : Bool :=
  t.storage_slot == 0 && t.old_value == 0 && t.new_value == 0

/-- A membership witness; the header reads its `sibling_path` only. -/
structure MembershipWitness (F : Type) where
  sibling_path : List F
deriving DecidableEq, Repr

/-- The members of `call_context` the header reads. -/
structure CallContext where
  is_contract_deployment : Bool
deriving DecidableEq, Repr

/-- The members of `function_data` the header reads. -/
structure FunctionData (F : Type) where
  function_selector : F
  is_private : Bool
  is_constructor : Bool
deriving DecidableEq, Repr

/-- The members of `call_stack_item.public_inputs` the header reads. -/
structure PublicInputs (F : Type) (K : Sizes) where
  call_context : CallContext
  state_reads : Fin K.STATE_READS_LENGTH → StateRead F
  state_transitions : Fin K.STATE_TRANSITIONS_LENGTH → StateTransition F
  public_call_stack : Fin K.PUBLIC_CALL_STACK_SIZE → F
  historic_public_data_tree_root : F

/-- The members of `call_stack_item` the header reads. -/
structure CallStackItem (F : Type) (K : Sizes) where
  contract_address : F
  function_data : FunctionData F
  public_inputs : PublicInputs F K

/-- The members of `public_call.public_call_data` the header reads. -/
structure PublicCallData (F P : Type) (K : Sizes) where
  call_stack_item : CallStackItem F K
  public_call_stack_preimages : Fin K.PUBLIC_CALL_STACK_SIZE → P
  bytecode_hash : F

/-- The members of `public_kernel_inputs.public_call` the header reads. -/
structure PublicCall (F P : Type) (K : Sizes) where
  public_call_data : PublicCallData F P K
  state_reads_sibling_paths : Fin K.STATE_READS_LENGTH → MembershipWitness F
  state_transitions_sibling_paths : Fin K.STATE_TRANSITIONS_LENGTH → MembershipWitness F
  public_data_tree_root : F

/-- The template parameter `KernelInput`: any input with a `public_call`. -/
structure KernelInput (F P : Type) (K : Sizes) where
  public_call : PublicCall F P K

/-! ## The failure collector -/

/-- A failure message.  `text` is a string literal of the header; the other three
are the calls of `format` in the header, kept as the values they format rather
than as the formatted string. -/
inductive Message (F : Type) where
  | text (s : String)
  | state_reads_index (i : Nat) (leaf_value : F)
  | state_transitions_index (i : Nat) (leaf_value : F)
  | does_not_reconcile (i : Nat) (hash : F)
deriving DecidableEq, Repr

/-- The composer of `dummy_composer.hpp`, as far as the header uses it: the
failure messages collected so far, oldest first. -/
structure DummyComposer (F : Type) where
  failure_msgs : List (Message F)
deriving DecidableEq, Repr

/-- Modelled from the spec: `DummyComposer::do_assert` is declared in
`dummy_composer.hpp`, which is not part of the sources at hand.  It is the
failure collector: it records the message when the asserted condition is false,
records nothing when it is true, and never aborts. -/
def DummyComposer.do_assert {F : Type} (composer : DummyComposer F) (assertion : Bool)
    (msg : Message F) : DummyComposer F :=
  if assertion then composer else { failure_msgs := composer.failure_msgs ++ [msg] }

/-- Modelled from the spec: `check_membership` is declared in `hash.hpp`, which is
not part of the sources at hand.  It reconstructs a root from the leaf value, the
leaf index and the sibling path and compares it with the claimed root; on
mismatch it reports the failure to the collector. -/
def check_membership {F P : Type} [DecidableEq F] (prim : Primitives F P)
    (composer : DummyComposer F) (value index : F) (sibling_path : List F) (root : F)
    (msg : Message F) : DummyComposer F :=
  composer.do_assert (prim.root_from_sibling_path value index sibling_path == root) msg

/-! ## Validation -/

section Validation

variable {F P : Type} [DecidableEq F] [Zero F] {K : Sizes}

/-- The template `validate_state_reads`. -/
def validate_state_reads (prim : Primitives F P) (composer : DummyComposer F)
    (public_kernel_inputs : KernelInput F P K) : DummyComposer F :=
  let reads := public_kernel_inputs.public_call.public_call_data.call_stack_item.public_inputs.state_reads
  let contract_address := public_kernel_inputs.public_call.public_call_data.call_stack_item.contract_address
  (List.finRange K.STATE_READS_LENGTH).foldl
    (fun composer i =>
      let state_read := reads i
      if state_read.is_empty then composer
      else
        let sibling_path := (public_kernel_inputs.public_call.state_reads_sibling_paths i).sibling_path
        let leaf_value := prim.compute_public_data_tree_value state_read.current_value
        let leaf_index := prim.compute_public_data_tree_index contract_address state_read.storage_slot
        let msg := Message.state_reads_index i.val leaf_value
        check_membership prim composer leaf_value leaf_index sibling_path
          public_kernel_inputs.public_call.public_data_tree_root msg)
    composer

/-- The template `validate_state_transitions`. -/
def validate_state_transitions (prim : Primitives F P) (composer : DummyComposer F)
    (public_kernel_inputs : KernelInput F P K) : DummyComposer F :=
  let transitions :=
    public_kernel_inputs.public_call.public_call_data.call_stack_item.public_inputs.state_transitions
  let contract_address := public_kernel_inputs.public_call.public_call_data.call_stack_item.contract_address
  (List.finRange K.STATE_TRANSITIONS_LENGTH).foldl
    (fun composer i =>
      let state_transition := transitions i
      if state_transition.is_empty then composer
      else
        let sibling_path :=
          (public_kernel_inputs.public_call.state_transitions_sibling_paths i).sibling_path
        let leaf_value := prim.compute_public_data_tree_value state_transition.old_value
        let leaf_index := prim.compute_public_data_tree_index contract_address state_transition.storage_slot
        let msg := Message.state_transitions_index i.val leaf_value
        check_membership prim composer leaf_value leaf_index sibling_path
          public_kernel_inputs.public_call.public_data_tree_root msg)
    composer

/-- The template `validate_this_public_call_stack`. -/
def validate_this_public_call_stack (prim : Primitives F P) (composer : DummyComposer F)
    (public_kernel_inputs : KernelInput F P K) : DummyComposer F :=
  let stack := public_kernel_inputs.public_call.public_call_data.call_stack_item.public_inputs.public_call_stack
  let preimages := public_kernel_inputs.public_call.public_call_data.public_call_stack_preimages
  (List.finRange K.PUBLIC_CALL_STACK_SIZE).foldl
    (fun composer i =>
      let hash := stack i
      let preimage := preimages i
      let calculated_hash := if hash == 0 then 0 else prim.hash preimage
      composer.do_assert (hash != calculated_hash) (Message.does_not_reconcile i.val hash))
    composer

/-- The template `validate_function_execution`. -/
def validate_function_execution (prim : Primitives F P) (composer : DummyComposer F)
    (public_kernel_inputs : KernelInput F P K) : DummyComposer F :=
  let composer := validate_state_reads prim composer public_kernel_inputs
  validate_state_transitions prim composer public_kernel_inputs

/-- The template `common_validate_kernel_execution`. -/
def common_validate_kernel_execution (prim : Primitives F P) (composer : DummyComposer F)
    (public_kernel_inputs : KernelInput F P K) : DummyComposer F :=
  let composer := validate_this_public_call_stack prim composer public_kernel_inputs
  validate_function_execution prim composer public_kernel_inputs

/-- The template `common_validate_inputs`. -/
def common_validate_inputs (composer : DummyComposer F)
    (public_kernel_inputs : KernelInput F P K) : DummyComposer F :=
  let this_call_stack_item := public_kernel_inputs.public_call.public_call_data.call_stack_item
  let composer := composer.do_assert
    (this_call_stack_item.public_inputs.call_context.is_contract_deployment == false)
    (Message.text "Contract deployment can't be a public function")
  let composer := composer.do_assert (this_call_stack_item.contract_address != 0)
    (Message.text "Contract address must be valid")
  let composer := composer.do_assert (this_call_stack_item.function_data.function_selector != 0)
    (Message.text "Function signature must be valid")
  let composer := composer.do_assert (this_call_stack_item.function_data.is_constructor == false)
    (Message.text "Constructors can't be public functions")
  let composer := composer.do_assert (this_call_stack_item.function_data.is_private == false)
    (Message.text "Cannot execute a private function with the public kernel circuit")
  composer.do_assert (public_kernel_inputs.public_call.public_call_data.bytecode_hash != 0)
    (Message.text "Bytecode hash must be valid")

end Validation

/-! ## Accumulation -/

/-- The historic tree roots of the circuit outputs.  The header writes
`public_data_tree_root`; `other` stands for the members it does not name. -/
structure HistoricTreeRoots (F X : Type) where
  public_data_tree_root : F
  other : X
deriving DecidableEq, Repr

/-- The member `constants` of the circuit outputs; `other` stands for the members
the header does not name. -/
structure CombinedConstantData (F X : Type) where
  historic_tree_roots : HistoricTreeRoots F X
  other : X
deriving DecidableEq, Repr

/-- The member `end` of the circuit outputs (`end` is reserved in Lean, hence the
type is named after its role).  Modelled from the spec: the two fixed-capacity
arrays are declared outside the header; each is the list of the entries pushed so
far, oldest first, and its capacity is given by `Sizes`.  `other` stands for the
members the header does not name. -/
structure CombinedAccumulatedData (F X : Type) where
  public_call_stack : List F
  state_transitions : List (PublicDataWrite F)
  other : X
deriving DecidableEq, Repr

/-- The circuit outputs `KernelCircuitPublicInputs<NT>`, the accumulator that is
threaded through the kernel steps. -/
structure KernelCircuitPublicInputs (F X : Type) where
  end_ : CombinedAccumulatedData F X
  constants : CombinedConstantData F X
  is_private : Bool
deriving DecidableEq, Repr

/-- The failure of an append beyond the capacity of an array. -/
inductive Error where
  | CapacityExceeded
deriving DecidableEq, Repr

/-- Modelled from the spec: `array_push` is declared in `array.hpp`, which is not
part of the sources at hand.  It appends one entry to a fixed-capacity array and
fails with `CapacityExceeded` when the array is full. -/
def array_push {α : Type} (capacity : Nat) (arr : List α) (value : α) :
    Except Error (List α) :=
  if arr.length < capacity then .ok (arr ++ [value]) else .error .CapacityExceeded

/-- Modelled from the spec: `push_array_to_array` is declared in `array.hpp`, which
is not part of the sources at hand.  It appends every entry of the source, zero
entries included, onto the target in the original order, and fails with
`CapacityExceeded` if this would exceed the fixed capacity of the target. -/
def push_array_to_array {α : Type} (capacity : Nat) (source target : List α) :
    Except Error (List α) :=
  if target.length + source.length ≤ capacity then .ok (target ++ source)
  else .error .CapacityExceeded

/-- What the caller of `update_public_end_values` observes: the circuit outputs it
passed by reference, as the call left them, and the error that ended the call, if
there was one. -/
structure Outcome (F X : Type) where
  circuit_outputs : KernelCircuitPublicInputs F X
  error : Option Error
deriving DecidableEq, Repr

section Accumulation

variable {F P X : Type} [DecidableEq F] [Zero F] {K : Sizes}

/-- The loop over the state transitions in `update_public_end_values`, for the
indices that remain to be visited.  A failing `array_push` ends the call with the
circuit outputs as they are at that point. -/
def push_state_transitions (prim : Primitives F P) (contract_address : F)
    (transitions : Fin K.STATE_TRANSITIONS_LENGTH → StateTransition F) :
    List (Fin K.STATE_TRANSITIONS_LENGTH) → KernelCircuitPublicInputs F X → Outcome F X
  | [], circuit_outputs => { circuit_outputs := circuit_outputs, error := none }
  | i :: rest, circuit_outputs =>
    let state_transition := transitions i
    if state_transition.is_empty then
      push_state_transitions prim contract_address transitions rest circuit_outputs
    else
      let new_write : PublicDataWrite F :=
        { leaf_index :=
            prim.compute_public_data_tree_index contract_address state_transition.storage_slot
          new_value := prim.compute_public_data_tree_value state_transition.new_value }
      match array_push K.END_STATE_TRANSITIONS_CAPACITY
          circuit_outputs.end_.state_transitions new_write with
      | .error e => { circuit_outputs := circuit_outputs, error := some e }
      | .ok arr =>
        push_state_transitions prim contract_address transitions rest
          { circuit_outputs with
            end_ := { circuit_outputs.end_ with state_transitions := arr } }

/-- The template `update_public_end_values`. -/
def update_public_end_values (prim : Primitives F P)
    (public_kernel_inputs : KernelInput F P K)
    (circuit_outputs : KernelCircuitPublicInputs F X) : Outcome F X :=
  let circuit_outputs := { circuit_outputs with is_private := false }
  let circuit_outputs :=
    { circuit_outputs with
      constants :=
        { circuit_outputs.constants with
          historic_tree_roots :=
            { circuit_outputs.constants.historic_tree_roots with
              public_data_tree_root :=
                public_kernel_inputs.public_call.public_call_data.call_stack_item.public_inputs.historic_public_data_tree_root } } }
  let stack :=
    public_kernel_inputs.public_call.public_call_data.call_stack_item.public_inputs.public_call_stack
  match push_array_to_array K.END_PUBLIC_CALL_STACK_CAPACITY (List.ofFn stack)
      circuit_outputs.end_.public_call_stack with
  | .error e => { circuit_outputs := circuit_outputs, error := some e }
  | .ok arr =>
    let circuit_outputs :=
      { circuit_outputs with end_ := { circuit_outputs.end_ with public_call_stack := arr } }
    let contract_address :=
      public_kernel_inputs.public_call.public_call_data.call_stack_item.contract_address
    let transitions :=
      public_kernel_inputs.public_call.public_call_data.call_stack_item.public_inputs.state_transitions
    push_state_transitions prim contract_address transitions
      (List.finRange K.STATE_TRANSITIONS_LENGTH) circuit_outputs

end Accumulation

/-! ## Vocabulary of the properties -/

section Vocabulary

variable {F P : Type} [DecidableEq F] [Zero F] {K : Sizes}

/-- The index a failure message was formatted with, if it was formatted with one. -/
def Message.index {F : Type} : Message F → Option Nat
  | .text _ => none
  | .state_reads_index i _ => some i
  | .state_transitions_index i _ => some i
  | .does_not_reconcile i _ => some i

/-- The reports a validator added: the messages of the composer after the call
that come after those the composer held before the call. -/
def new_reports {F : Type} (before after : DummyComposer F) : List (Message F) :=
  after.failure_msgs.drop before.failure_msgs.length

/-- The hash entry `i` of the call stack is to be reconciled with: zero for a zero
entry, the hash of the preimage otherwise. -/
def expected_hash (prim : Primitives F P) (inp : KernelInput F P K)
    (i : Fin K.PUBLIC_CALL_STACK_SIZE) : F :=
  if inp.public_call.public_call_data.call_stack_item.public_inputs.public_call_stack i = 0 then 0
  else prim.hash (inp.public_call.public_call_data.public_call_stack_preimages i)

/-- The root reconstructed for state read `i`: from the leaf value of its current
value, the leaf index of its slot under the contract of the call, and the sibling
path given for index `i`. -/
def state_read_root (prim : Primitives F P) (inp : KernelInput F P K)
    (i : Fin K.STATE_READS_LENGTH) : F :=
  prim.root_from_sibling_path
    (prim.compute_public_data_tree_value
      (inp.public_call.public_call_data.call_stack_item.public_inputs.state_reads i).current_value)
    (prim.compute_public_data_tree_index
      inp.public_call.public_call_data.call_stack_item.contract_address
      (inp.public_call.public_call_data.call_stack_item.public_inputs.state_reads i).storage_slot)
    (inp.public_call.state_reads_sibling_paths i).sibling_path

/-- State read `i` is non-empty and its reconstructed root differs from the
public data tree root of the call. -/
def state_read_mismatch (prim : Primitives F P) (inp : KernelInput F P K)
    (i : Fin K.STATE_READS_LENGTH) : Bool :=
  !(inp.public_call.public_call_data.call_stack_item.public_inputs.state_reads i).is_empty &&
    state_read_root prim inp i != inp.public_call.public_data_tree_root

/-- The root reconstructed for state transition `i`: from the leaf value of its old
value, the leaf index of its slot under the contract of the call, and the sibling
path given for index `i`. -/
def state_transition_root (prim : Primitives F P) (inp : KernelInput F P K)
    (i : Fin K.STATE_TRANSITIONS_LENGTH) : F :=
  prim.root_from_sibling_path
    (prim.compute_public_data_tree_value
      (inp.public_call.public_call_data.call_stack_item.public_inputs.state_transitions i).old_value)
    (prim.compute_public_data_tree_index
      inp.public_call.public_call_data.call_stack_item.contract_address
      (inp.public_call.public_call_data.call_stack_item.public_inputs.state_transitions i).storage_slot)
    (inp.public_call.state_transitions_sibling_paths i).sibling_path

/-- State transition `i` is non-empty and its reconstructed root differs from the
public data tree root of the call. -/
def state_transition_mismatch (prim : Primitives F P) (inp : KernelInput F P K)
    (i : Fin K.STATE_TRANSITIONS_LENGTH) : Bool :=
  !(inp.public_call.public_call_data.call_stack_item.public_inputs.state_transitions i).is_empty &&
    state_transition_root prim inp i != inp.public_call.public_data_tree_root

/-- The input with its state transitions replaced and everything else kept. -/
def KernelInput.with_state_transitions (inp : KernelInput F P K)
    (transitions : Fin K.STATE_TRANSITIONS_LENGTH → StateTransition F) : KernelInput F P K :=
  { inp with
    public_call :=
    { inp.public_call with
      public_call_data :=
      { inp.public_call.public_call_data with
        call_stack_item :=
        { inp.public_call.public_call_data.call_stack_item with
          public_inputs :=
          { inp.public_call.public_call_data.call_stack_item.public_inputs with
            state_transitions := transitions } } } } }

/-- The six conditions of `common_validate_inputs` in the order it checks them,
each with the message reported for it; the flag says whether the condition fails. -/
def input_conditions (inp : KernelInput F P K) : List (Bool × Message F) :=
  let item := inp.public_call.public_call_data.call_stack_item
  [ (item.public_inputs.call_context.is_contract_deployment,
      Message.text "Contract deployment can't be a public function"),
    (decide (item.contract_address = 0), Message.text "Contract address must be valid"),
    (decide (item.function_data.function_selector = 0),
      Message.text "Function signature must be valid"),
    (item.function_data.is_constructor, Message.text "Constructors can't be public functions"),
    (item.function_data.is_private,
      Message.text "Cannot execute a private function with the public kernel circuit"),
    (decide (inp.public_call.public_call_data.bytecode_hash = 0),
      Message.text "Bytecode hash must be valid") ]

/-- The write built from a state transition of the contract: its leaf index is
computed from the contract address and the slot, its value from the new value. -/
def public_data_write (prim : Primitives F P) (contract_address : F)
    (t : StateTransition F) : PublicDataWrite F :=
  { leaf_index := prim.compute_public_data_tree_index contract_address t.storage_slot
    new_value := prim.compute_public_data_tree_value t.new_value }

/-- The writes of the state transitions at the indices `l`: one per non-empty
transition, in the order of `l`. -/
def writes_at (prim : Primitives F P) (contract_address : F)
    (transitions : Fin K.STATE_TRANSITIONS_LENGTH → StateTransition F)
    (l : List (Fin K.STATE_TRANSITIONS_LENGTH)) : List (PublicDataWrite F) :=
  (l.filter (fun i => !(transitions i).is_empty)).map
    (fun i => public_data_write prim contract_address (transitions i))

/-- The writes of a call: one per non-empty state transition, in the index order
of the array of state transitions, repeated slots included. -/
def new_writes (prim : Primitives F P) (inp : KernelInput F P K) : List (PublicDataWrite F) :=
  writes_at prim inp.public_call.public_call_data.call_stack_item.contract_address
    inp.public_call.public_call_data.call_stack_item.public_inputs.state_transitions
    (List.finRange K.STATE_TRANSITIONS_LENGTH)

/-- The circuit outputs with `is_private` cleared, the historic public data tree
root of the call written, the two arrays of `end` as given, and every other member
as in `circuit_outputs`. -/
def outputs_with {X : Type} (inp : KernelInput F P K)
    (circuit_outputs : KernelCircuitPublicInputs F X) (public_call_stack : List F)
    (state_transitions : List (PublicDataWrite F)) : KernelCircuitPublicInputs F X :=
  { end_ :=
    { public_call_stack := public_call_stack
      state_transitions := state_transitions
      other := circuit_outputs.end_.other }
    constants :=
    { historic_tree_roots :=
      { public_data_tree_root :=
          inp.public_call.public_call_data.call_stack_item.public_inputs.historic_public_data_tree_root
        other := circuit_outputs.constants.historic_tree_roots.other }
      other := circuit_outputs.constants.other }
    is_private := false }

/-- The input with the historic public data tree root of its public inputs
replaced and everything else kept. -/
def KernelInput.with_historic_public_data_tree_root (inp : KernelInput F P K)
    (root : F) : KernelInput F P K :=
  { inp with
    public_call :=
    { inp.public_call with
      public_call_data :=
      { inp.public_call.public_call_data with
        call_stack_item :=
        { inp.public_call.public_call_data.call_stack_item with
          public_inputs :=
          { inp.public_call.public_call_data.call_stack_item.public_inputs with
            historic_public_data_tree_root := root } } } } }

/-- The input with the public data tree root of the call replaced and everything
else kept. -/
def KernelInput.with_public_data_tree_root (inp : KernelInput F P K) (root : F) :
    KernelInput F P K :=
  { inp with public_call := { inp.public_call with public_data_tree_root := root } }

/-- The input with the sibling paths of its state reads and of its state
transitions replaced and everything else kept. -/
def KernelInput.with_sibling_paths (inp : KernelInput F P K)
    (reads_paths : Fin K.STATE_READS_LENGTH → MembershipWitness F)
    (transitions_paths : Fin K.STATE_TRANSITIONS_LENGTH → MembershipWitness F) :
    KernelInput F P K :=
  { inp with
    public_call :=
    { inp.public_call with
      state_reads_sibling_paths := reads_paths
      state_transitions_sibling_paths := transitions_paths } }

/-- The input with the preimages of its call stack replaced and everything else
kept. -/
def KernelInput.with_preimages (inp : KernelInput F P K)
    (preimages : Fin K.PUBLIC_CALL_STACK_SIZE → P) : KernelInput F P K :=
  { inp with
    public_call :=
    { inp.public_call with
      public_call_data :=
      { inp.public_call.public_call_data with public_call_stack_preimages := preimages } } }

/-- The message `validate_this_public_call_stack` formats for entry `i`. -/
def reconcile_message (inp : KernelInput F P K) (i : Fin K.PUBLIC_CALL_STACK_SIZE) :
    Message F :=
  Message.does_not_reconcile i.val
    (inp.public_call.public_call_data.call_stack_item.public_inputs.public_call_stack i)

/-- The message `validate_state_reads` formats for read `i`. -/
def state_read_message (prim : Primitives F P) (inp : KernelInput F P K)
    (i : Fin K.STATE_READS_LENGTH) : Message F :=
  Message.state_reads_index i.val
    (prim.compute_public_data_tree_value
      (inp.public_call.public_call_data.call_stack_item.public_inputs.state_reads i).current_value)

/-- The message `validate_state_transitions` formats for transition `i`. -/
def state_transition_message (prim : Primitives F P) (inp : KernelInput F P K)
    (i : Fin K.STATE_TRANSITIONS_LENGTH) : Message F :=
  Message.state_transitions_index i.val
    (prim.compute_public_data_tree_value
      (inp.public_call.public_call_data.call_stack_item.public_inputs.state_transitions i).old_value)

end Vocabulary

/-! ## Concrete inputs used to evaluate the definitions -/

namespace Example

/-- Two reads, two transitions and three call stack slots per call; room for four
pending calls and two writes in the circuit outputs. -/
def sizes : Sizes :=
  { STATE_READS_LENGTH := 2
    STATE_TRANSITIONS_LENGTH := 2
    PUBLIC_CALL_STACK_SIZE := 3
    END_PUBLIC_CALL_STACK_CAPACITY := 4
    END_STATE_TRANSITIONS_CAPACITY := 2 }

/-- Toy primitives over the natural numbers; a preimage is a number and hashes to
its successor. -/
def prim : Primitives Nat Nat :=
  { compute_public_data_tree_index := fun contract_address storage_slot =>
      1000 * contract_address + storage_slot
    compute_public_data_tree_value := fun value => value + 100
    root_from_sibling_path := fun value index sibling_path => value + index + sibling_path.sum
    hash := fun preimage => preimage + 1 }

/-- A call of contract 3 that passes `common_validate_inputs`.  Its read of slot 4
(value 6) and its transition of slot 5 (7 to 9) are members of the tree with root
3200 under the toy primitives; the second read and the second transition are
empty.  Its call stack is `[8, 0, 5]` with preimages hashing to 8, 1 and 10. -/
def input : KernelInput Nat Nat sizes :=
  { public_call :=
    { public_call_data :=
      { call_stack_item :=
        { contract_address := 3
          function_data := { function_selector := 11, is_private := false, is_constructor := false }
          public_inputs :=
          { call_context := { is_contract_deployment := false }
            state_reads := ![StateRead.mk 4 6, StateRead.mk 0 0]
            state_transitions := ![StateTransition.mk 5 7 9, StateTransition.mk 0 0 0]
            public_call_stack := ![8, 0, 5]
            historic_public_data_tree_root := 500 } }
        public_call_stack_preimages := ![7, 0, 9]
        bytecode_hash := 77 }
      state_reads_sibling_paths := ![MembershipWitness.mk [90], MembershipWitness.mk []]
      state_transitions_sibling_paths := ![MembershipWitness.mk [88], MembershipWitness.mk []]
      public_data_tree_root := 3200 } }

/-- The transitions of `input` with the new value of the non-empty one changed
from 9 to 42. -/
def other_new_values : Fin sizes.STATE_TRANSITIONS_LENGTH → StateTransition Nat :=
  ![StateTransition.mk 5 7 42, StateTransition.mk 0 0 0]

/-- The call of `input` marked as a contract deployment; nothing else is changed. -/
def deployment_input : KernelInput Nat Nat sizes :=
  { public_call :=
    { input.public_call with
      public_call_data :=
      { input.public_call.public_call_data with
        call_stack_item :=
        { input.public_call.public_call_data.call_stack_item with
          public_inputs :=
          { input.public_call.public_call_data.call_stack_item.public_inputs with
            call_context := { is_contract_deployment := true } } } } } }

/-- Circuit outputs of earlier steps: one pending call and one write, a private
flag that is set and a historic root of 400. -/
def outputs : KernelCircuitPublicInputs Nat Nat :=
  { end_ :=
    { public_call_stack := [21]
      state_transitions := [PublicDataWrite.mk 1 2]
      other := 61 }
    constants :=
    { historic_tree_roots := { public_data_tree_root := 400, other := 62 }
      other := 63 }
    is_private := true }

/-- The circuit outputs `outputs` with `end.state_transitions` at its capacity of
two writes. -/
def full_outputs : KernelCircuitPublicInputs Nat Nat :=
  { outputs with
    end_ :=
    { outputs.end_ with
      state_transitions := [PublicDataWrite.mk 1 2, PublicDataWrite.mk 3 4] } }

/-- The call of `input` with its entries moved behind an empty one: read 0 and
transition 0 are empty, read 1 is the read of slot 4 and transition 1 the
transition of slot 5.  The sibling paths at the empty indices are arbitrary; the
path of read 1 reconstructs 3201 instead of the root 3200, the path of transition
1 reconstructs the root. -/
def sparse_input : KernelInput Nat Nat sizes :=
  { public_call :=
    { public_call_data :=
      { call_stack_item :=
        { contract_address := 3
          function_data := { function_selector := 11, is_private := false, is_constructor := false }
          public_inputs :=
          { call_context := { is_contract_deployment := false }
            state_reads := ![StateRead.mk 0 0, StateRead.mk 4 6]
            state_transitions := ![StateTransition.mk 0 0 0, StateTransition.mk 5 7 9]
            public_call_stack := ![8, 0, 5]
            historic_public_data_tree_root := 500 } }
        public_call_stack_preimages := ![7, 0, 9]
        bytecode_hash := 77 }
      state_reads_sibling_paths := ![MembershipWitness.mk [999], MembershipWitness.mk [91]]
      state_transitions_sibling_paths := ![MembershipWitness.mk [5, 6], MembershipWitness.mk [88]]
      public_data_tree_root := 3200 } }

/-- The call of `input` with no nested call: every entry of its call stack is
zero. -/
def zero_stack_input : KernelInput Nat Nat sizes :=
  { public_call :=
    { input.public_call with
      public_call_data :=
      { input.public_call.public_call_data with
        call_stack_item :=
        { input.public_call.public_call_data.call_stack_item with
          public_inputs :=
          { input.public_call.public_call_data.call_stack_item.public_inputs with
            public_call_stack := ![0, 0, 0] } } } } }

/-- The preimages of `input` with the one at index 1, where the call stack holds
zero, changed from 0 to 55. -/
def other_preimages : Fin sizes.PUBLIC_CALL_STACK_SIZE → Nat := ![7, 55, 9]

/-- A composer that already holds a report. -/
def used_composer : DummyComposer Nat :=
  { failure_msgs := [Message.text "Bytecode hash must be valid"] }

/-- An empty composer. -/
def composer : DummyComposer Nat := { failure_msgs := [] }

end Example

/-! ## Lemmas on the loops -/

/-- A loop that skips some indices and asserts a condition at the others appends,
in the order of the loop, the messages of the visited indices whose condition is
false. -/
theorem foldl_do_assert_failure_msgs {F ι : Type} (skip cond : ι → Bool)
    (msg : ι → Message F) (l : List ι) (composer : DummyComposer F) :
    (l.foldl (fun composer i =>
        if skip i then composer else composer.do_assert (cond i) (msg i)) composer).failure_msgs
      = composer.failure_msgs ++ (l.filter (fun i => !skip i && !cond i)).map msg := by
  induction l generalizing composer with
  | nil => simp
  | cons i l ih =>
    simp only [List.foldl_cons, ih, List.filter_cons]
    cases hs : skip i <;> cases hc : cond i <;> simp [DummyComposer.do_assert]

/-- The reports added are the appended messages. -/
theorem new_reports_of_append {F : Type} (before after : DummyComposer F) (added : List (Message F))
    (h : after.failure_msgs = before.failure_msgs ++ added) :
    new_reports before after = added := by
  simp [new_reports, h]

/-- Among the messages of the indices selected by `p`, each formatted with its own
index, index `i` occurs once if `p` selects it and not at all otherwise. -/
theorem countP_index_map_filter {F : Type} {n : Nat} (p : Fin n → Bool) (msg : Fin n → Message F)
    (hmsg : ∀ j, (msg j).index = some j.val) (i : Fin n) :
    (((List.finRange n).filter p).map msg).countP (fun m => m.index == some i.val)
      = if p i then 1 else 0 := by
  have hfun : ((fun m : Message F => m.index == some i.val) ∘ msg) = fun j => j == i := by
    funext j
    simp [hmsg, Fin.val_inj]
  rw [List.countP_map, hfun]
  have hcount : List.countP (fun j => j == i) ((List.finRange n).filter p)
      = List.count i ((List.finRange n).filter p) := rfl
  rw [hcount]
  by_cases hp : p i = true
  · rw [if_pos hp, List.count_filter hp]
    exact List.count_eq_one_of_mem (List.nodup_finRange n) (List.mem_finRange i)
  · rw [if_neg hp]
    exact List.count_eq_zero_of_not_mem (fun hmem => hp (List.mem_filter.mp hmem).2)

/-- The messages of the indices selected by `p`, each formatted with its own
index, carry strictly increasing indices. -/
theorem pairwise_index_map_filter {F : Type} {n : Nat} (p : Fin n → Bool)
    (msg : Fin n → Message F) (hmsg : ∀ j, (msg j).index = some j.val) :
    (((((List.finRange n).filter p).map msg)).filterMap Message.index).Pairwise (· < ·) := by
  have hfun : (Message.index ∘ msg) = some ∘ Fin.val := funext hmsg
  rw [List.filterMap_map, hfun, List.filterMap_eq_map, List.pairwise_map]
  exact ((List.pairwise_lt_finRange n).filter _).imp (fun h => h)

section Lemmas

variable {F P : Type} [DecidableEq F] [Zero F] {K : Sizes}

/-- The messages of `validate_state_reads` after the call. -/
theorem validate_state_reads_failure_msgs (prim : Primitives F P)
    (composer : DummyComposer F) (inp : KernelInput F P K) :
    (validate_state_reads prim composer inp).failure_msgs =
      composer.failure_msgs ++
        ((List.finRange K.STATE_READS_LENGTH).filter (state_read_mismatch prim inp)).map
          (fun i => Message.state_reads_index i.val
            (prim.compute_public_data_tree_value
              (inp.public_call.public_call_data.call_stack_item.public_inputs.state_reads i).current_value)) := by
  unfold validate_state_reads check_membership
  simp only []
  rw [foldl_do_assert_failure_msgs]
  rfl

/-- The messages of `validate_state_transitions` after the call. -/
theorem validate_state_transitions_failure_msgs (prim : Primitives F P)
    (composer : DummyComposer F) (inp : KernelInput F P K) :
    (validate_state_transitions prim composer inp).failure_msgs =
      composer.failure_msgs ++
        ((List.finRange K.STATE_TRANSITIONS_LENGTH).filter (state_transition_mismatch prim inp)).map
          (fun i => Message.state_transitions_index i.val
            (prim.compute_public_data_tree_value
              (inp.public_call.public_call_data.call_stack_item.public_inputs.state_transitions i).old_value)) := by
  unfold validate_state_transitions check_membership
  simp only []
  rw [foldl_do_assert_failure_msgs]
  rfl

/-- The messages of `validate_this_public_call_stack` after the call. -/
theorem validate_this_public_call_stack_failure_msgs (prim : Primitives F P)
    (composer : DummyComposer F) (inp : KernelInput F P K) :
    (validate_this_public_call_stack prim composer inp).failure_msgs =
      composer.failure_msgs ++
        ((List.finRange K.PUBLIC_CALL_STACK_SIZE).filter (fun i =>
          inp.public_call.public_call_data.call_stack_item.public_inputs.public_call_stack i
            == expected_hash prim inp i)).map
          (fun i => Message.does_not_reconcile i.val
            (inp.public_call.public_call_data.call_stack_item.public_inputs.public_call_stack i)) := by
  unfold validate_this_public_call_stack
  simp only []
  have h := foldl_do_assert_failure_msgs (fun _ => false)
    (fun i => inp.public_call.public_call_data.call_stack_item.public_inputs.public_call_stack i
      != expected_hash prim inp i)
    (fun i => Message.does_not_reconcile i.val
      (inp.public_call.public_call_data.call_stack_item.public_inputs.public_call_stack i))
    (List.finRange K.PUBLIC_CALL_STACK_SIZE) composer
  simp only [Bool.false_eq_true, if_false, Bool.not_false, Bool.true_and, bne, Bool.not_not] at h
  simp only [expected_hash, beq_iff_eq] at h ⊢
  exact h

/-- The messages of `common_validate_inputs` after the call. -/
theorem common_validate_inputs_failure_msgs (composer : DummyComposer F)
    (inp : KernelInput F P K) :
    (common_validate_inputs composer inp).failure_msgs =
      composer.failure_msgs ++ ((input_conditions inp).filter (fun c => c.1)).map (fun c => c.2) := by
  simp only [common_validate_inputs, input_conditions, DummyComposer.do_assert]
  cases inp.public_call.public_call_data.call_stack_item.public_inputs.call_context.is_contract_deployment <;>
  cases inp.public_call.public_call_data.call_stack_item.function_data.is_constructor <;>
  cases inp.public_call.public_call_data.call_stack_item.function_data.is_private <;>
  by_cases h2 : inp.public_call.public_call_data.call_stack_item.contract_address = 0 <;>
  by_cases h3 : inp.public_call.public_call_data.call_stack_item.function_data.function_selector = 0 <;>
  by_cases h6 : inp.public_call.public_call_data.bytecode_hash = 0 <;>
  simp [h2, h3, h6]

/-- The loop over the state transitions: it appends the writes of the indices it
visits while there is room, fails at the first write that finds the array full,
and touches nothing else. -/
theorem push_state_transitions_eq {X : Type} (prim : Primitives F P) (contract_address : F)
    (transitions : Fin K.STATE_TRANSITIONS_LENGTH → StateTransition F)
    (l : List (Fin K.STATE_TRANSITIONS_LENGTH)) (co : KernelCircuitPublicInputs F X) :
    push_state_transitions prim contract_address transitions l co =
      if (writes_at prim contract_address transitions l).length
          ≤ K.END_STATE_TRANSITIONS_CAPACITY - co.end_.state_transitions.length then
        { circuit_outputs :=
            { co with
              end_ :=
              { co.end_ with
                state_transitions :=
                  co.end_.state_transitions ++ writes_at prim contract_address transitions l } }
          error := none }
      else
        { circuit_outputs :=
            { co with
              end_ :=
              { co.end_ with
                state_transitions :=
                  co.end_.state_transitions ++
                    (writes_at prim contract_address transitions l).take
                      (K.END_STATE_TRANSITIONS_CAPACITY - co.end_.state_transitions.length) } }
          error := some Error.CapacityExceeded } := by
  induction l generalizing co with
  | nil => simp [push_state_transitions, writes_at]
  | cons i rest ih =>
    unfold push_state_transitions
    by_cases hempty : (transitions i).is_empty = true
    · have hw : writes_at prim contract_address transitions (i :: rest)
          = writes_at prim contract_address transitions rest := by
        simp [writes_at, hempty]
      simp only [hempty, if_true, hw]
      exact ih co
    · have hw : writes_at prim contract_address transitions (i :: rest)
          = public_data_write prim contract_address (transitions i)
              :: writes_at prim contract_address transitions rest := by
        simp [writes_at, hempty]
      simp only [hempty, Bool.false_eq_true, if_false, hw, array_push]
      by_cases hroom : co.end_.state_transitions.length < K.END_STATE_TRANSITIONS_CAPACITY
      · simp only [hroom, if_true]
        rw [ih]
        have hsub : K.END_STATE_TRANSITIONS_CAPACITY - co.end_.state_transitions.length
            = (K.END_STATE_TRANSITIONS_CAPACITY
                - (co.end_.state_transitions.length + 1)) + 1 := by omega
        simp only [List.length_append, List.length_singleton, List.length_cons,
          List.append_assoc, List.singleton_append]
        rw [hsub, List.take_succ_cons]
        simp only [public_data_write, Nat.add_le_add_iff_right]
        rfl
      · have hzero : K.END_STATE_TRANSITIONS_CAPACITY - co.end_.state_transitions.length = 0 := by
          omega
        simp [hroom, hzero]

/-- The result of `update_public_end_values` in each of its three cases: the call
stack does not fit; the call stack fits and the writes do; the call stack fits and
the writes do not. -/
theorem update_public_end_values_eq {X : Type} (prim : Primitives F P)
    (inp : KernelInput F P K) (A : KernelCircuitPublicInputs F X) :
    update_public_end_values prim inp A =
      if A.end_.public_call_stack.length + K.PUBLIC_CALL_STACK_SIZE
          ≤ K.END_PUBLIC_CALL_STACK_CAPACITY then
        if (new_writes prim inp).length
            ≤ K.END_STATE_TRANSITIONS_CAPACITY - A.end_.state_transitions.length then
          { circuit_outputs :=
              outputs_with inp A
                (A.end_.public_call_stack ++ List.ofFn
                  inp.public_call.public_call_data.call_stack_item.public_inputs.public_call_stack)
                (A.end_.state_transitions ++ new_writes prim inp)
            error := none }
        else
          { circuit_outputs :=
              outputs_with inp A
                (A.end_.public_call_stack ++ List.ofFn
                  inp.public_call.public_call_data.call_stack_item.public_inputs.public_call_stack)
                (A.end_.state_transitions ++ (new_writes prim inp).take
                  (K.END_STATE_TRANSITIONS_CAPACITY - A.end_.state_transitions.length))
            error := some Error.CapacityExceeded }
      else
        { circuit_outputs := outputs_with inp A A.end_.public_call_stack A.end_.state_transitions
          error := some Error.CapacityExceeded } := by
  unfold update_public_end_values push_array_to_array
  simp only [List.length_ofFn]
  by_cases hstack : A.end_.public_call_stack.length + K.PUBLIC_CALL_STACK_SIZE
      ≤ K.END_PUBLIC_CALL_STACK_CAPACITY
  · simp only [hstack, if_true]
    rw [push_state_transitions_eq]
    rfl
  · simp only [hstack, if_false]
    rfl

/-- The number of writes of a call is the number of its non-empty transitions. -/
theorem length_new_writes (prim : Primitives F P) (inp : KernelInput F P K) :
    (new_writes prim inp).length =
      (List.finRange K.STATE_TRANSITIONS_LENGTH).countP (fun i =>
        !(inp.public_call.public_call_data.call_stack_item.public_inputs.state_transitions i).is_empty) := by
  simp [new_writes, writes_at, List.countP_eq_length_filter]

/-- A call with a non-empty transition has at least one write. -/
theorem new_writes_ne_nil (prim : Primitives F P) (inp : KernelInput F P K)
    (h : ∃ i, (inp.public_call.public_call_data.call_stack_item.public_inputs.state_transitions i).is_empty
      = false) :
    0 < (new_writes prim inp).length := by
  obtain ⟨i, hi⟩ := h
  rw [length_new_writes]
  exact List.countP_pos_iff.mpr ⟨i, List.mem_finRange i, by simp [hi]⟩

/-- The messages of `common_validate_kernel_execution` after the call: those of
the call stack, then those of the state reads, then those of the state
transitions. -/
theorem common_validate_kernel_execution_failure_msgs (prim : Primitives F P)
    (composer : DummyComposer F) (inp : KernelInput F P K) :
    (common_validate_kernel_execution prim composer inp).failure_msgs =
      composer.failure_msgs ++
        (((List.finRange K.PUBLIC_CALL_STACK_SIZE).filter (fun i =>
            inp.public_call.public_call_data.call_stack_item.public_inputs.public_call_stack i
              == expected_hash prim inp i)).map (reconcile_message inp) ++
          (((List.finRange K.STATE_READS_LENGTH).filter (state_read_mismatch prim inp)).map
              (state_read_message prim inp) ++
            ((List.finRange K.STATE_TRANSITIONS_LENGTH).filter
              (state_transition_mismatch prim inp)).map (state_transition_message prim inp))) := by
  unfold common_validate_kernel_execution validate_function_execution
  simp only []
  rw [validate_state_transitions_failure_msgs, validate_state_reads_failure_msgs,
    validate_this_public_call_stack_failure_msgs]
  simp only [List.append_assoc]
  rfl

/-- The reports of `validate_this_public_call_stack`: the messages of the entries
that equal their expected hash, in index order. -/
theorem new_reports_validate_this_public_call_stack (prim : Primitives F P)
    (composer : DummyComposer F) (inp : KernelInput F P K) :
    new_reports composer (validate_this_public_call_stack prim composer inp) =
      ((List.finRange K.PUBLIC_CALL_STACK_SIZE).filter (fun i =>
          inp.public_call.public_call_data.call_stack_item.public_inputs.public_call_stack i
            == expected_hash prim inp i)).map (reconcile_message inp) :=
  new_reports_of_append composer _ _
    (validate_this_public_call_stack_failure_msgs prim composer inp)

/-- The reports of `validate_state_reads`: the messages of the mismatching reads,
in index order. -/
theorem new_reports_validate_state_reads (prim : Primitives F P)
    (composer : DummyComposer F) (inp : KernelInput F P K) :
    new_reports composer (validate_state_reads prim composer inp) =
      ((List.finRange K.STATE_READS_LENGTH).filter (state_read_mismatch prim inp)).map
        (state_read_message prim inp) :=
  new_reports_of_append composer _ _ (validate_state_reads_failure_msgs prim composer inp)

/-- The reports of `validate_state_transitions`: the messages of the mismatching
transitions, in index order. -/
theorem new_reports_validate_state_transitions (prim : Primitives F P)
    (composer : DummyComposer F) (inp : KernelInput F P K) :
    new_reports composer (validate_state_transitions prim composer inp) =
      ((List.finRange K.STATE_TRANSITIONS_LENGTH).filter
        (state_transition_mismatch prim inp)).map (state_transition_message prim inp) :=
  new_reports_of_append composer _ _
    (validate_state_transitions_failure_msgs prim composer inp)

end Lemmas

/-! ## Theorems -/

section Theorems

variable {F P X : Type} [DecidableEq F] [Zero F] {K : Sizes}

/-- C1 (the code departs from the claim).  On the call stack `[8, 0, 5]` of
`Example.input`, entry 0 equals the hash expected for it and entry 2 differs from
the hash expected for it, yet `validate_this_public_call_stack` reports entries 0
and 1 and does not report entry 2: it reports an entry when the entry equals the
expected hash, not when it differs. -/
theorem validate_this_public_call_stack_reports_equal_entries :
    Example.input.public_call.public_call_data.call_stack_item.public_inputs.public_call_stack (0 : Fin 3)
        = expected_hash Example.prim Example.input (0 : Fin 3) ∧
      Example.input.public_call.public_call_data.call_stack_item.public_inputs.public_call_stack (2 : Fin 3)
        ≠ expected_hash Example.prim Example.input (2 : Fin 3) ∧
      new_reports Example.composer
          (validate_this_public_call_stack Example.prim Example.composer Example.input)
        = [Message.does_not_reconcile 0 8, Message.does_not_reconcile 1 0] := by
  decide

/-- C2.  `validate_state_reads` keeps the messages the composer held and adds, in
increasing index order, exactly one membership failure for each index whose state
read is non-empty and whose reconstructed root differs from the public data tree
root of the call, and nothing for any other index: index `i` occurs once among the
added reports if read `i` is a mismatch and not at all otherwise, whatever happened
at the other indices. -/
theorem validate_state_reads_reports (prim : Primitives F P) (composer : DummyComposer F)
    (inp : KernelInput F P K) :
    (validate_state_reads prim composer inp).failure_msgs
        = composer.failure_msgs ++ new_reports composer (validate_state_reads prim composer inp) ∧
      new_reports composer (validate_state_reads prim composer inp)
        = ((List.finRange K.STATE_READS_LENGTH).filter (state_read_mismatch prim inp)).map
            (fun i => Message.state_reads_index i.val
              (prim.compute_public_data_tree_value
                (inp.public_call.public_call_data.call_stack_item.public_inputs.state_reads i).current_value)) ∧
      ((new_reports composer (validate_state_reads prim composer inp)).filterMap
          Message.index).Pairwise (· < ·) ∧
      ∀ i : Fin K.STATE_READS_LENGTH,
        (new_reports composer (validate_state_reads prim composer inp)).countP
            (fun m => m.index == some i.val)
          = if state_read_mismatch prim inp i then 1 else 0 := by
  have h := validate_state_reads_failure_msgs prim composer inp
  have hnew := new_reports_of_append composer _ _ h
  refine ⟨by rw [hnew]; exact h, hnew, ?_, fun i => ?_⟩
  · rw [hnew]
    exact pairwise_index_map_filter (state_read_mismatch prim inp)
      (fun i => Message.state_reads_index i.val _) (fun _ => rfl)
  · rw [hnew]
    exact countP_index_map_filter (state_read_mismatch prim inp)
      (fun i => Message.state_reads_index i.val _) (fun _ => rfl) i

/-- C3.  `validate_state_transitions` keeps the messages the composer held and
adds, in increasing index order, exactly one membership failure for each index
whose state transition is non-empty and whose root, reconstructed from the old
value, differs from the public data tree root of the call, and nothing otherwise.
The new value is not checked: replacing the transitions by transitions with the
same slots and old values, which differ from the original ones only at indices
where both are non-empty, leaves the reports identical. -/
theorem validate_state_transitions_reports (prim : Primitives F P)
    (composer : DummyComposer F) (inp : KernelInput F P K)
    (transitions : Fin K.STATE_TRANSITIONS_LENGTH → StateTransition F)
    (hsame : ∀ i,
      (transitions i).storage_slot
          = (inp.public_call.public_call_data.call_stack_item.public_inputs.state_transitions i).storage_slot ∧
        (transitions i).old_value
          = (inp.public_call.public_call_data.call_stack_item.public_inputs.state_transitions i).old_value ∧
        (transitions i = inp.public_call.public_call_data.call_stack_item.public_inputs.state_transitions i ∨
          ((inp.public_call.public_call_data.call_stack_item.public_inputs.state_transitions i).is_empty = false ∧
            (transitions i).is_empty = false))) :
    (validate_state_transitions prim composer inp).failure_msgs
        = composer.failure_msgs
            ++ new_reports composer (validate_state_transitions prim composer inp) ∧
      new_reports composer (validate_state_transitions prim composer inp)
        = ((List.finRange K.STATE_TRANSITIONS_LENGTH).filter
              (state_transition_mismatch prim inp)).map
            (fun i => Message.state_transitions_index i.val
              (prim.compute_public_data_tree_value
                (inp.public_call.public_call_data.call_stack_item.public_inputs.state_transitions i).old_value)) ∧
      ((new_reports composer (validate_state_transitions prim composer inp)).filterMap
          Message.index).Pairwise (· < ·) ∧
      (∀ i : Fin K.STATE_TRANSITIONS_LENGTH,
        (new_reports composer (validate_state_transitions prim composer inp)).countP
            (fun m => m.index == some i.val)
          = if state_transition_mismatch prim inp i then 1 else 0) ∧
      new_reports composer
          (validate_state_transitions prim composer (inp.with_state_transitions transitions))
        = new_reports composer (validate_state_transitions prim composer inp) := by
  have h := validate_state_transitions_failure_msgs prim composer inp
  have hnew := new_reports_of_append composer _ _ h
  have h2 := validate_state_transitions_failure_msgs prim composer
    (inp.with_state_transitions transitions)
  have hnew2 := new_reports_of_append composer _ _ h2
  refine ⟨by rw [hnew]; exact h, hnew, ?_, fun i => ?_, ?_⟩
  · rw [hnew]
    exact pairwise_index_map_filter (state_transition_mismatch prim inp)
      (fun i => Message.state_transitions_index i.val _) (fun _ => rfl)
  · rw [hnew]
    exact countP_index_map_filter (state_transition_mismatch prim inp)
      (fun i => Message.state_transitions_index i.val _) (fun _ => rfl) i
  · have hmis : state_transition_mismatch prim (inp.with_state_transitions transitions)
        = state_transition_mismatch prim inp := by
      funext i
      obtain ⟨hs, ho, hne⟩ := hsame i
      simp only [state_transition_mismatch, state_transition_root,
        KernelInput.with_state_transitions, hs, ho]
      rcases hne with heq | ⟨he1, he2⟩
      · rw [heq]
      · rw [he1, he2]
    have hmsg : (fun i : Fin K.STATE_TRANSITIONS_LENGTH => Message.state_transitions_index i.val
          (prim.compute_public_data_tree_value
            ((inp.with_state_transitions transitions).public_call.public_call_data.call_stack_item.public_inputs.state_transitions i).old_value))
        = fun i => Message.state_transitions_index i.val
          (prim.compute_public_data_tree_value
            (inp.public_call.public_call_data.call_stack_item.public_inputs.state_transitions i).old_value) := by
      funext i
      simp only [KernelInput.with_state_transitions, (hsame i).2.1]
    rw [hnew2, hnew, hmis, hmsg]

/-- C3, at a concrete input: changing the new value of the non-empty transition of
`Example.input` from 9 to 42 leaves the reports of `validate_state_transitions`
identical. -/
theorem validate_state_transitions_reports_witness :
    new_reports Example.composer
        (validate_state_transitions Example.prim Example.composer
          (Example.input.with_state_transitions Example.other_new_values))
      = new_reports Example.composer
          (validate_state_transitions Example.prim Example.composer Example.input) :=
  (validate_state_transitions_reports Example.prim Example.composer Example.input
    Example.other_new_values (by decide)).2.2.2.2

/-- C4.  `common_validate_inputs` keeps the messages the composer held and adds
exactly the messages of the failing ones among its six conditions, in the order
of the checks (contract deployment, zero contract address, zero function selector,
constructor, private function, zero bytecode hash), without short-circuit.  Hence
it adds nothing iff all six conditions pass, the number of added reports is the
number of failing conditions, and an input failing only by being a contract
deployment gets the one deployment report. -/
theorem common_validate_inputs_reports (composer : DummyComposer F)
    (inp : KernelInput F P K) :
    (common_validate_inputs composer inp).failure_msgs
        = composer.failure_msgs ++ new_reports composer (common_validate_inputs composer inp) ∧
      new_reports composer (common_validate_inputs composer inp)
        = ((input_conditions inp).filter (fun c => c.1)).map (fun c => c.2) ∧
      (new_reports composer (common_validate_inputs composer inp) = [] ↔
        (inp.public_call.public_call_data.call_stack_item.public_inputs.call_context.is_contract_deployment = false ∧
          inp.public_call.public_call_data.call_stack_item.contract_address ≠ 0 ∧
          inp.public_call.public_call_data.call_stack_item.function_data.function_selector ≠ 0 ∧
          inp.public_call.public_call_data.call_stack_item.function_data.is_constructor = false ∧
          inp.public_call.public_call_data.call_stack_item.function_data.is_private = false ∧
          inp.public_call.public_call_data.bytecode_hash ≠ 0)) ∧
      (new_reports composer (common_validate_inputs composer inp)).length
        = (input_conditions inp).countP (fun c => c.1) ∧
      (inp.public_call.public_call_data.call_stack_item.public_inputs.call_context.is_contract_deployment = true →
        inp.public_call.public_call_data.call_stack_item.contract_address ≠ 0 →
        inp.public_call.public_call_data.call_stack_item.function_data.function_selector ≠ 0 →
        inp.public_call.public_call_data.call_stack_item.function_data.is_constructor = false →
        inp.public_call.public_call_data.call_stack_item.function_data.is_private = false →
        inp.public_call.public_call_data.bytecode_hash ≠ 0 →
        new_reports composer (common_validate_inputs composer inp)
          = [Message.text "Contract deployment can't be a public function"]) := by
  have h := common_validate_inputs_failure_msgs composer inp
  have hnew := new_reports_of_append composer _ _ h
  refine ⟨by rw [hnew]; exact h, hnew, ?_, ?_, ?_⟩
  · rw [hnew]
    simp only [input_conditions]
    cases inp.public_call.public_call_data.call_stack_item.public_inputs.call_context.is_contract_deployment <;>
    cases inp.public_call.public_call_data.call_stack_item.function_data.is_constructor <;>
    cases inp.public_call.public_call_data.call_stack_item.function_data.is_private <;>
    by_cases h2 : inp.public_call.public_call_data.call_stack_item.contract_address = 0 <;>
    by_cases h3 : inp.public_call.public_call_data.call_stack_item.function_data.function_selector = 0 <;>
    by_cases h6 : inp.public_call.public_call_data.bytecode_hash = 0 <;>
    simp [h2, h3, h6]
  · rw [hnew, List.length_map, List.countP_eq_length_filter]
  · intro h1 h2 h3 h4 h5 h6
    rw [hnew]
    simp [input_conditions, h1, h2, h3, h4, h5, h6]

/-- C4, at a concrete input: `Example.deployment_input` fails only by being a
contract deployment and gets exactly the deployment report. -/
theorem common_validate_inputs_reports_witness :
    new_reports Example.composer (common_validate_inputs Example.composer Example.deployment_input)
      = [Message.text "Contract deployment can't be a public function"] :=
  (common_validate_inputs_reports Example.composer Example.deployment_input).2.2.2.2
    (by decide) (by decide) (by decide) (by decide) (by decide) (by decide)

/-- C5.  When the call stack of the call and its writes both fit in the free
capacity of the circuit outputs, `update_public_end_values` succeeds and appends
to `end.state_transitions` exactly the writes of the call: one
`PublicDataWrite` with the leaf index of (contract address, slot) and the leaf
value of the new value per non-empty state transition, in the index order of the
transitions, repeated slots included. -/
theorem update_public_end_values_appends_writes (prim : Primitives F P)
    (inp : KernelInput F P K) (A : KernelCircuitPublicInputs F X)
    (hstack : A.end_.public_call_stack.length + K.PUBLIC_CALL_STACK_SIZE
      ≤ K.END_PUBLIC_CALL_STACK_CAPACITY)
    (hwrites : (new_writes prim inp).length
      ≤ K.END_STATE_TRANSITIONS_CAPACITY - A.end_.state_transitions.length) :
    (update_public_end_values prim inp A).error = none ∧
      (update_public_end_values prim inp A).circuit_outputs.end_.state_transitions
        = A.end_.state_transitions ++ new_writes prim inp ∧
      new_writes prim inp
        = ((List.finRange K.STATE_TRANSITIONS_LENGTH).filter (fun i =>
              !(inp.public_call.public_call_data.call_stack_item.public_inputs.state_transitions i).is_empty)).map
            (fun i =>
              { leaf_index := prim.compute_public_data_tree_index
                  inp.public_call.public_call_data.call_stack_item.contract_address
                  (inp.public_call.public_call_data.call_stack_item.public_inputs.state_transitions i).storage_slot
                new_value := prim.compute_public_data_tree_value
                  (inp.public_call.public_call_data.call_stack_item.public_inputs.state_transitions i).new_value }) := by
  rw [update_public_end_values_eq, if_pos hstack, if_pos hwrites]
  exact ⟨rfl, rfl, rfl⟩

/-- C5, at a concrete input: the single non-empty transition of `Example.input`
(slot 5, old value 7, new value 9, contract 3) yields the single appended write
with the leaf index of (3, 5) and the leaf value of 9. -/
theorem update_public_end_values_appends_writes_witness :
    (update_public_end_values Example.prim Example.input Example.outputs).error = none ∧
      (update_public_end_values Example.prim Example.input
          Example.outputs).circuit_outputs.end_.state_transitions
        = Example.outputs.end_.state_transitions ++ new_writes Example.prim Example.input ∧
      new_writes Example.prim Example.input
        = [{ leaf_index := Example.prim.compute_public_data_tree_index 3 5
             new_value := Example.prim.compute_public_data_tree_value 9 }] :=
  ⟨(update_public_end_values_appends_writes Example.prim Example.input Example.outputs
      (by decide) (by decide)).1,
    (update_public_end_values_appends_writes Example.prim Example.input Example.outputs
      (by decide) (by decide)).2.1,
    by decide⟩

/-- C6.  When the call stack of the call fits in the free capacity of
`end.public_call_stack`, `update_public_end_values` appends every entry of the
call stack, zero entries included, in the original order: entry `i` of the call
stack is found at position `length before + i`.  This holds whether or not the
later accumulation of the state transitions succeeds. -/
theorem update_public_end_values_appends_call_stack (prim : Primitives F P)
    (inp : KernelInput F P K) (A : KernelCircuitPublicInputs F X)
    (hstack : A.end_.public_call_stack.length + K.PUBLIC_CALL_STACK_SIZE
      ≤ K.END_PUBLIC_CALL_STACK_CAPACITY) :
    (update_public_end_values prim inp A).circuit_outputs.end_.public_call_stack
        = A.end_.public_call_stack ++ List.ofFn
            inp.public_call.public_call_data.call_stack_item.public_inputs.public_call_stack ∧
      (update_public_end_values prim inp A).circuit_outputs.end_.public_call_stack.length
        = A.end_.public_call_stack.length + K.PUBLIC_CALL_STACK_SIZE ∧
      ∀ i : Fin K.PUBLIC_CALL_STACK_SIZE,
        (update_public_end_values prim inp A).circuit_outputs.end_.public_call_stack[
            A.end_.public_call_stack.length + i.val]?
          = some (inp.public_call.public_call_data.call_stack_item.public_inputs.public_call_stack i) := by
  have h : (update_public_end_values prim inp A).circuit_outputs.end_.public_call_stack
      = A.end_.public_call_stack ++ List.ofFn
          inp.public_call.public_call_data.call_stack_item.public_inputs.public_call_stack := by
    rw [update_public_end_values_eq, if_pos hstack]
    split_ifs <;> rfl
  refine ⟨h, by rw [h]; simp, fun i => ?_⟩
  rw [h, List.getElem?_append_right (Nat.le_add_right _ _)]
  simp

/-- C6, at a concrete input: the call stack `[8, 0, 5]` of `Example.input` is
appended to the pending call `[21]` of `Example.outputs`, its zero entry included. -/
theorem update_public_end_values_appends_call_stack_witness :
    (update_public_end_values Example.prim Example.input
        Example.outputs).circuit_outputs.end_.public_call_stack = [21, 8, 0, 5] :=
  (update_public_end_values_appends_call_stack Example.prim Example.input Example.outputs
    (by decide)).1.trans (by decide)

/-- C7.  Accumulation is append-only and order-preserving: when
`update_public_end_values` succeeds, the entries `end.public_call_stack` and
`end.state_transitions` held before the call are a prefix of the entries they hold
after it, and they are followed by the call stack entries of the call and by the
writes of the call, each in the index order of its source array. -/
theorem update_public_end_values_append_only (prim : Primitives F P)
    (inp : KernelInput F P K) (A : KernelCircuitPublicInputs F X)
    (hok : (update_public_end_values prim inp A).error = none) :
    A.end_.public_call_stack
        <+: (update_public_end_values prim inp A).circuit_outputs.end_.public_call_stack ∧
      A.end_.state_transitions
        <+: (update_public_end_values prim inp A).circuit_outputs.end_.state_transitions ∧
      (update_public_end_values prim inp A).circuit_outputs.end_.public_call_stack
        = A.end_.public_call_stack ++ List.ofFn
            inp.public_call.public_call_data.call_stack_item.public_inputs.public_call_stack ∧
      (update_public_end_values prim inp A).circuit_outputs.end_.state_transitions
        = A.end_.state_transitions ++ new_writes prim inp := by
  rw [update_public_end_values_eq] at hok ⊢
  split_ifs at hok ⊢
  exact ⟨List.prefix_append _ _, List.prefix_append _ _, rfl, rfl⟩

/-- C7, at a concrete input: on `Example.input` and `Example.outputs` the call
succeeds, and the pending call `[21]` and the write held before are prefixes of the
arrays after the call. -/
theorem update_public_end_values_append_only_witness :
    (update_public_end_values Example.prim Example.input Example.outputs).error = none ∧
      [21] <+: (update_public_end_values Example.prim Example.input
        Example.outputs).circuit_outputs.end_.public_call_stack ∧
      [PublicDataWrite.mk 1 2] <+: (update_public_end_values Example.prim Example.input
        Example.outputs).circuit_outputs.end_.state_transitions :=
  ⟨by decide,
    (update_public_end_values_append_only Example.prim Example.input Example.outputs
      (by decide)).1,
    (update_public_end_values_append_only Example.prim Example.input Example.outputs
      (by decide)).2.1⟩

/-- C8 (the claim fails as stated).  `Example.full_outputs` holds
`end.state_transitions` at its capacity and `Example.input` contributes one
non-empty transition: `update_public_end_values` fails with a capacity error, and
the circuit outputs are not as before the call: `is_private` went from true to
false, the historic root from 400 to 500, and the call stack of the call was
appended to `end.public_call_stack`. -/
theorem update_public_end_values_failure_is_not_atomic :
    Example.full_outputs.end_.state_transitions.length
        = Example.sizes.END_STATE_TRANSITIONS_CAPACITY ∧
      (new_writes Example.prim Example.input).length = 1 ∧
      (update_public_end_values Example.prim Example.input Example.full_outputs).error
        = some Error.CapacityExceeded ∧
      (update_public_end_values Example.prim Example.input Example.full_outputs).circuit_outputs
        ≠ Example.full_outputs ∧
      Example.full_outputs.is_private = true ∧
      (update_public_end_values Example.prim Example.input
        Example.full_outputs).circuit_outputs.is_private = false ∧
      Example.full_outputs.end_.public_call_stack = [21] ∧
      (update_public_end_values Example.prim Example.input
        Example.full_outputs).circuit_outputs.end_.public_call_stack = [21, 8, 0, 5] := by
  decide

/-- C8, amended.  When `end.state_transitions` is at its capacity and the call has
a non-empty state transition, `update_public_end_values` fails with a capacity
error and leaves `end.state_transitions` as it was, with no partial write in it.
The writes made before the failing push stay: `is_private` is false, the historic
root is the one of the call, and `end.public_call_stack` holds the call stack of
the call after its earlier entries if that fitted, and is unchanged if it did not. -/
theorem update_public_end_values_at_capacity (prim : Primitives F P)
    (inp : KernelInput F P K) (A : KernelCircuitPublicInputs F X)
    (hfull : A.end_.state_transitions.length = K.END_STATE_TRANSITIONS_CAPACITY)
    (hone : ∃ i,
      (inp.public_call.public_call_data.call_stack_item.public_inputs.state_transitions i).is_empty
        = false) :
    (update_public_end_values prim inp A).error = some Error.CapacityExceeded ∧
      (update_public_end_values prim inp A).circuit_outputs.end_.state_transitions
        = A.end_.state_transitions ∧
      (update_public_end_values prim inp A).circuit_outputs
        = outputs_with inp A
            (if A.end_.public_call_stack.length + K.PUBLIC_CALL_STACK_SIZE
                ≤ K.END_PUBLIC_CALL_STACK_CAPACITY then
              A.end_.public_call_stack ++ List.ofFn
                inp.public_call.public_call_data.call_stack_item.public_inputs.public_call_stack
            else A.end_.public_call_stack)
            A.end_.state_transitions := by
  have hpos := new_writes_ne_nil prim inp hone
  have hnot : ¬ (new_writes prim inp).length
      ≤ K.END_STATE_TRANSITIONS_CAPACITY - A.end_.state_transitions.length := by omega
  have hzero : K.END_STATE_TRANSITIONS_CAPACITY - A.end_.state_transitions.length = 0 := by omega
  rw [update_public_end_values_eq]
  by_cases hstack : A.end_.public_call_stack.length + K.PUBLIC_CALL_STACK_SIZE
      ≤ K.END_PUBLIC_CALL_STACK_CAPACITY
  · rw [if_pos hstack, if_neg hnot, if_pos hstack, hzero]
    simp [outputs_with]
  · rw [if_neg hstack, if_neg hstack]
    simp [outputs_with]

/-- C8 amended, at a concrete input: on `Example.full_outputs` the call for
`Example.input` fails with a capacity error and leaves the two writes of
`end.state_transitions` as they were. -/
theorem update_public_end_values_at_capacity_witness :
    (update_public_end_values Example.prim Example.input Example.full_outputs).error
        = some Error.CapacityExceeded ∧
      (update_public_end_values Example.prim Example.input
          Example.full_outputs).circuit_outputs.end_.state_transitions
        = [PublicDataWrite.mk 1 2, PublicDataWrite.mk 3 4] :=
  ⟨(update_public_end_values_at_capacity Example.prim Example.input Example.full_outputs
      (by decide) ⟨(0 : Fin 2), by decide⟩).1,
    (update_public_end_values_at_capacity Example.prim Example.input Example.full_outputs
      (by decide) ⟨(0 : Fin 2), by decide⟩).2.1⟩

/-- C9.  `update_public_end_values` fails, with a capacity error, exactly on
overflow: it fails iff the entries of `end.public_call_stack` together with the
call stack of the call exceed its capacity, or the number of non-empty state
transitions exceeds the free slots of `end.state_transitions`.  The accumulation of the state transitions,
run on any circuit outputs, fails iff the number of non-empty state transitions
exceeds the free slots of `end.state_transitions`.  Whenever the call succeeds,
`end.public_call_stack` is within its capacity, and so is `end.state_transitions`
if it was within its capacity before. -/
theorem update_public_end_values_fails_iff_overflow (prim : Primitives F P)
    (inp : KernelInput F P K) (A : KernelCircuitPublicInputs F X) :
    ((update_public_end_values prim inp A).error = some Error.CapacityExceeded ↔
        (K.END_PUBLIC_CALL_STACK_CAPACITY
            < A.end_.public_call_stack.length + K.PUBLIC_CALL_STACK_SIZE ∨
          K.END_STATE_TRANSITIONS_CAPACITY - A.end_.state_transitions.length
            < (List.finRange K.STATE_TRANSITIONS_LENGTH).countP (fun i =>
                !(inp.public_call.public_call_data.call_stack_item.public_inputs.state_transitions i).is_empty))) ∧
      ((update_public_end_values prim inp A).error = none ↔
        ¬ (update_public_end_values prim inp A).error = some Error.CapacityExceeded) ∧
      (∀ co : KernelCircuitPublicInputs F X,
        (push_state_transitions prim
            inp.public_call.public_call_data.call_stack_item.contract_address
            inp.public_call.public_call_data.call_stack_item.public_inputs.state_transitions
            (List.finRange K.STATE_TRANSITIONS_LENGTH) co).error = some Error.CapacityExceeded ↔
          K.END_STATE_TRANSITIONS_CAPACITY - co.end_.state_transitions.length
            < (List.finRange K.STATE_TRANSITIONS_LENGTH).countP (fun i =>
                !(inp.public_call.public_call_data.call_stack_item.public_inputs.state_transitions i).is_empty)) ∧
      ((update_public_end_values prim inp A).error = none →
        (update_public_end_values prim inp A).circuit_outputs.end_.public_call_stack.length
            ≤ K.END_PUBLIC_CALL_STACK_CAPACITY ∧
          (A.end_.state_transitions.length ≤ K.END_STATE_TRANSITIONS_CAPACITY →
            (update_public_end_values prim inp A).circuit_outputs.end_.state_transitions.length
              ≤ K.END_STATE_TRANSITIONS_CAPACITY)) := by
  have hlen := length_new_writes prim inp
  refine ⟨?_, ?_, fun co => ?_, ?_⟩
  · rw [update_public_end_values_eq, ← hlen]
    split_ifs with h1 h2
    · simp only [reduceCtorEq, false_iff, not_or, not_lt]
      omega
    · simp only [true_iff]
      omega
    · simp only [true_iff]
      omega
  · cases h : (update_public_end_values prim inp A).error with
    | none => simp
    | some e => cases e; simp
  · rw [push_state_transitions_eq, ← hlen]
    split_ifs with h
    · simp only [reduceCtorEq, false_iff, not_lt]
      exact h
    · simp only [true_iff]
      exact Nat.lt_of_not_le h
  · rw [update_public_end_values_eq]
    split_ifs with h1 h2
    · intro _
      refine ⟨?_, fun hA => ?_⟩
      · simp [outputs_with]
        exact h1
      · simp [outputs_with]
        omega
    · intro h; cases h
    · intro h; cases h

/-- C9, at a concrete input: on `Example.input` and `Example.outputs` nothing
overflows, the call succeeds and both arrays are within their capacities of four
pending calls and two writes. -/
theorem update_public_end_values_fails_iff_overflow_witness :
    (update_public_end_values Example.prim Example.input Example.outputs).error = none ∧
      (update_public_end_values Example.prim Example.input
        Example.outputs).circuit_outputs.end_.public_call_stack.length ≤ 4 ∧
      (update_public_end_values Example.prim Example.input
        Example.outputs).circuit_outputs.end_.state_transitions.length ≤ 2 :=
  ⟨by decide,
    ((update_public_end_values_fails_iff_overflow Example.prim Example.input
      Example.outputs).2.2.2 (by decide)).1,
    ((update_public_end_values_fails_iff_overflow Example.prim Example.input
      Example.outputs).2.2.2 (by decide)).2 (by decide)⟩

/-- C10.  After `update_public_end_values`, whether it succeeded or failed and
whatever the two members held before, `is_private` is false and
`constants.historic_tree_roots.public_data_tree_root` is the
`historic_public_data_tree_root` of the call. -/
theorem update_public_end_values_overwrites (prim : Primitives F P)
    (inp : KernelInput F P K) (A : KernelCircuitPublicInputs F X) :
    (update_public_end_values prim inp A).circuit_outputs.is_private = false ∧
      (update_public_end_values prim inp A).circuit_outputs.constants.historic_tree_roots.public_data_tree_root
        = inp.public_call.public_call_data.call_stack_item.public_inputs.historic_public_data_tree_root := by
  rw [update_public_end_values_eq]
  split_ifs <;> exact ⟨rfl, rfl⟩

/-- C11 (the code departs from the claim).  On the call stack `[8, 0, 5]` of
`Example.input`, whose preimages hash to 8, 1 and 10, entry 1 is zero and entry 2
differs from the hash of its preimage, yet `validate_this_public_call_stack`
reports index 1 once and index 2 not at all; it makes two reports, not one.  A
call stack of zeros only gets one report per entry. -/
theorem validate_this_public_call_stack_reports_zero_entries :
    Example.input.public_call.public_call_data.call_stack_item.public_inputs.public_call_stack
        (1 : Fin 3) = 0 ∧
      Example.prim.hash (Example.input.public_call.public_call_data.public_call_stack_preimages
          (2 : Fin 3))
        ≠ Example.input.public_call.public_call_data.call_stack_item.public_inputs.public_call_stack
          (2 : Fin 3) ∧
      (new_reports Example.composer
          (validate_this_public_call_stack Example.prim Example.composer Example.input)).countP
        (fun m => m.index == some 1) = 1 ∧
      (new_reports Example.composer
          (validate_this_public_call_stack Example.prim Example.composer Example.input)).countP
        (fun m => m.index == some 2) = 0 ∧
      (new_reports Example.composer
          (validate_this_public_call_stack Example.prim Example.composer Example.input)).length
        = 2 ∧
      new_reports Example.composer
          (validate_this_public_call_stack Example.prim Example.composer Example.zero_stack_input)
        = [Message.does_not_reconcile 0 0, Message.does_not_reconcile 1 0,
            Message.does_not_reconcile 2 0] := by
  decide

/-- C12.  Validation has no hidden state.  Each of `common_validate_inputs` and
`common_validate_kernel_execution` keeps the messages the composer held and only
appends to them, and the reports it appends do not depend on the composer it is
given: they are the same from any two composers, in particular from the composer
left by an earlier run on the same input. -/
theorem validation_reports_depend_on_input_only (prim : Primitives F P)
    (composer composer' : DummyComposer F) (inp : KernelInput F P K) :
    ((common_validate_inputs composer inp).failure_msgs
        = composer.failure_msgs ++ new_reports composer (common_validate_inputs composer inp) ∧
      new_reports composer (common_validate_inputs composer inp)
        = new_reports composer' (common_validate_inputs composer' inp)) ∧
    ((common_validate_kernel_execution prim composer inp).failure_msgs
        = composer.failure_msgs
            ++ new_reports composer (common_validate_kernel_execution prim composer inp) ∧
      new_reports composer (common_validate_kernel_execution prim composer inp)
        = new_reports composer' (common_validate_kernel_execution prim composer' inp)) ∧
    (new_reports (common_validate_inputs composer inp)
        (common_validate_inputs (common_validate_inputs composer inp) inp)
      = new_reports composer (common_validate_inputs composer inp) ∧
    new_reports (common_validate_kernel_execution prim composer inp)
        (common_validate_kernel_execution prim
          (common_validate_kernel_execution prim composer inp) inp)
      = new_reports composer (common_validate_kernel_execution prim composer inp)) := by
  have hi := fun c : DummyComposer F =>
    new_reports_of_append c _ _ (common_validate_inputs_failure_msgs c inp)
  have hk := fun c : DummyComposer F =>
    new_reports_of_append c _ _ (common_validate_kernel_execution_failure_msgs prim c inp)
  refine ⟨⟨?_, ?_⟩, ⟨?_, ?_⟩, ?_, ?_⟩
  · rw [hi]; exact common_validate_inputs_failure_msgs composer inp
  · rw [hi, hi]
  · rw [hk]; exact common_validate_kernel_execution_failure_msgs prim composer inp
  · rw [hk, hk]
  · rw [hi, hi]
  · rw [hk, hk]

/-- C14.  The reports appended by `common_validate_kernel_execution` are the
reports of `validate_this_public_call_stack`, followed by those of
`validate_state_reads`, followed by those of `validate_state_transitions`, each as
the validator makes them when run alone from any composer: a failure of an earlier
validator neither suppresses nor alters the reports of a later one. -/
theorem common_validate_kernel_execution_reports (prim : Primitives F P)
    (composer c₁ c₂ c₃ : DummyComposer F) (inp : KernelInput F P K) :
    (common_validate_kernel_execution prim composer inp).failure_msgs
        = composer.failure_msgs
            ++ new_reports composer (common_validate_kernel_execution prim composer inp) ∧
      new_reports composer (common_validate_kernel_execution prim composer inp)
        = new_reports c₁ (validate_this_public_call_stack prim c₁ inp)
            ++ new_reports c₂ (validate_state_reads prim c₂ inp)
            ++ new_reports c₃ (validate_state_transitions prim c₃ inp) := by
  have hk := new_reports_of_append composer _ _
    (common_validate_kernel_execution_failure_msgs prim composer inp)
  refine ⟨?_, ?_⟩
  · rw [hk]; exact common_validate_kernel_execution_failure_msgs prim composer inp
  · rw [hk, new_reports_validate_this_public_call_stack, new_reports_validate_state_reads,
      new_reports_validate_state_transitions, List.append_assoc]

/-- C13.  Empty entries are skipped wherever they stand.  An empty state read or
state transition at index `i` gets no report, whatever the sibling path at `i`; a
non-empty one gets its membership check, one report iff its reconstructed root
differs from the root of the call, whatever entries precede it.  The writes
`update_public_end_values` appends are always an initial part of the writes of the
non-empty transitions, taken in index order, and all of them when it succeeds: an
empty transition yields no write, and every non-empty one is written. -/
theorem empty_entries_are_skipped (prim : Primitives F P) (composer : DummyComposer F)
    (inp : KernelInput F P K) (A : KernelCircuitPublicInputs F X) :
    (∀ i : Fin K.STATE_READS_LENGTH,
      (inp.public_call.public_call_data.call_stack_item.public_inputs.state_reads i).is_empty = true →
        (new_reports composer (validate_state_reads prim composer inp)).countP
          (fun m => m.index == some i.val) = 0) ∧
    (∀ i : Fin K.STATE_TRANSITIONS_LENGTH,
      (inp.public_call.public_call_data.call_stack_item.public_inputs.state_transitions i).is_empty
          = true →
        (new_reports composer (validate_state_transitions prim composer inp)).countP
          (fun m => m.index == some i.val) = 0) ∧
    (∀ i : Fin K.STATE_READS_LENGTH,
      (inp.public_call.public_call_data.call_stack_item.public_inputs.state_reads i).is_empty = false →
        (new_reports composer (validate_state_reads prim composer inp)).countP
            (fun m => m.index == some i.val)
          = if state_read_root prim inp i = inp.public_call.public_data_tree_root then 0 else 1) ∧
    (∀ i : Fin K.STATE_TRANSITIONS_LENGTH,
      (inp.public_call.public_call_data.call_stack_item.public_inputs.state_transitions i).is_empty
          = false →
        (new_reports composer (validate_state_transitions prim composer inp)).countP
            (fun m => m.index == some i.val)
          = if state_transition_root prim inp i = inp.public_call.public_data_tree_root then 0
            else 1) ∧
    (∃ k,
      (update_public_end_values prim inp A).circuit_outputs.end_.state_transitions
        = A.end_.state_transitions ++
            (((List.finRange K.STATE_TRANSITIONS_LENGTH).filter (fun i =>
              !(inp.public_call.public_call_data.call_stack_item.public_inputs.state_transitions i).is_empty)).map
              (fun i => public_data_write prim
                inp.public_call.public_call_data.call_stack_item.contract_address
                (inp.public_call.public_call_data.call_stack_item.public_inputs.state_transitions i))).take k) ∧
    ((update_public_end_values prim inp A).error = none →
      (update_public_end_values prim inp A).circuit_outputs.end_.state_transitions
          = A.end_.state_transitions ++
            ((List.finRange K.STATE_TRANSITIONS_LENGTH).filter (fun i =>
              !(inp.public_call.public_call_data.call_stack_item.public_inputs.state_transitions i).is_empty)).map
              (fun i => public_data_write prim
                inp.public_call.public_call_data.call_stack_item.contract_address
                (inp.public_call.public_call_data.call_stack_item.public_inputs.state_transitions i)) ∧
        (update_public_end_values prim inp A).circuit_outputs.end_.state_transitions.length
          = A.end_.state_transitions.length +
            (List.finRange K.STATE_TRANSITIONS_LENGTH).countP (fun i =>
              !(inp.public_call.public_call_data.call_stack_item.public_inputs.state_transitions i).is_empty) ∧
        ∀ j : Fin K.STATE_TRANSITIONS_LENGTH,
          (inp.public_call.public_call_data.call_stack_item.public_inputs.state_transitions j).is_empty
              = false →
            public_data_write prim
                inp.public_call.public_call_data.call_stack_item.contract_address
                (inp.public_call.public_call_data.call_stack_item.public_inputs.state_transitions j)
              ∈ (update_public_end_values prim inp A).circuit_outputs.end_.state_transitions) := by
  have hr := fun i => countP_index_map_filter (state_read_mismatch prim inp)
    (state_read_message prim inp) (fun _ => rfl) i
  have ht := fun i => countP_index_map_filter (state_transition_mismatch prim inp)
    (state_transition_message prim inp) (fun _ => rfl) i
  have hw : new_writes prim inp
      = ((List.finRange K.STATE_TRANSITIONS_LENGTH).filter (fun i =>
          !(inp.public_call.public_call_data.call_stack_item.public_inputs.state_transitions i).is_empty)).map
          (fun i => public_data_write prim
            inp.public_call.public_call_data.call_stack_item.contract_address
            (inp.public_call.public_call_data.call_stack_item.public_inputs.state_transitions i)) := rfl
  refine ⟨fun i hi => ?_, fun i hi => ?_, fun i hi => ?_, fun i hi => ?_, ?_, fun hok => ?_⟩
  · rw [new_reports_validate_state_reads, hr]
    simp [state_read_mismatch, hi]
  · rw [new_reports_validate_state_transitions, ht]
    simp [state_transition_mismatch, hi]
  · rw [new_reports_validate_state_reads, hr]
    by_cases hroot : state_read_root prim inp i = inp.public_call.public_data_tree_root
    · simp [state_read_mismatch, hi, hroot]
    · simp [state_read_mismatch, hi, hroot]
  · rw [new_reports_validate_state_transitions, ht]
    by_cases hroot : state_transition_root prim inp i = inp.public_call.public_data_tree_root
    · simp [state_transition_mismatch, hi, hroot]
    · simp [state_transition_mismatch, hi, hroot]
  · rw [← hw, update_public_end_values_eq]
    split_ifs
    · exact ⟨(new_writes prim inp).length, by simp [outputs_with]⟩
    · exact ⟨_, rfl⟩
    · exact ⟨0, by simp [outputs_with]⟩
  · rw [← hw]
    rw [update_public_end_values_eq] at hok ⊢
    split_ifs at hok ⊢
    refine ⟨rfl, ?_, fun j hj => ?_⟩
    · simp [outputs_with, length_new_writes]
    · simp only [outputs_with, List.mem_append]
      right
      rw [hw]
      exact List.mem_map.mpr ⟨j, List.mem_filter.mpr ⟨List.mem_finRange j, by simp [hj]⟩, rfl⟩

/-- C13, at a concrete input: in `Example.sparse_input` read 0 and transition 0
are empty and carry arbitrary sibling paths, read 1 has a wrong path and
transition 1 a right one.  Index 0 is not reported, read 1 is reported once, and
the write of transition 1 is appended to `Example.outputs`. -/
theorem empty_entries_are_skipped_witness :
    (new_reports Example.composer
        (validate_state_reads Example.prim Example.composer Example.sparse_input)).countP
      (fun m => m.index == some 0) = 0 ∧
    (new_reports Example.composer
        (validate_state_reads Example.prim Example.composer Example.sparse_input)).countP
      (fun m => m.index == some 1) = 1 ∧
    public_data_write Example.prim 3 (StateTransition.mk 5 7 9)
      ∈ (update_public_end_values Example.prim Example.sparse_input
          Example.outputs).circuit_outputs.end_.state_transitions :=
  ⟨(empty_entries_are_skipped Example.prim Example.composer Example.sparse_input
      Example.outputs).1 (0 : Fin 2) (by decide),
    ((empty_entries_are_skipped Example.prim Example.composer Example.sparse_input
      Example.outputs).2.2.1 (1 : Fin 2) (by decide)).trans (by decide),
    ((empty_entries_are_skipped Example.prim Example.composer Example.sparse_input
      Example.outputs).2.2.2.2.2 (by decide)).2.2 (1 : Fin 2) (by decide)⟩

/-- C15.  `validate_this_public_call_stack` is one `do_assert` per index of the
call stack, in index order, with the condition `stack[i] != calculated_hash`,
where `calculated_hash` is zero for a zero entry and the hash of the preimage
otherwise.  As the collector records a failure when the condition is false, the
reports it adds are those of the indices with `stack[i] == calculated_hash`, and
their number is the number of such indices.  A zero entry is reported once, and
changing the preimages at indices where the call stack is zero leaves the reports
identical. -/
theorem validate_this_public_call_stack_asserts (prim : Primitives F P)
    (composer : DummyComposer F) (inp : KernelInput F P K)
    (preimages : Fin K.PUBLIC_CALL_STACK_SIZE → P)
    (hpre : ∀ i,
      inp.public_call.public_call_data.call_stack_item.public_inputs.public_call_stack i ≠ 0 →
        preimages i = inp.public_call.public_call_data.public_call_stack_preimages i) :
    validate_this_public_call_stack prim composer inp
        = (List.finRange K.PUBLIC_CALL_STACK_SIZE).foldl
            (fun c i => c.do_assert
              (inp.public_call.public_call_data.call_stack_item.public_inputs.public_call_stack i
                != expected_hash prim inp i)
              (reconcile_message inp i))
            composer ∧
      (validate_this_public_call_stack prim composer inp).failure_msgs
        = composer.failure_msgs
            ++ new_reports composer (validate_this_public_call_stack prim composer inp) ∧
      new_reports composer (validate_this_public_call_stack prim composer inp)
        = ((List.finRange K.PUBLIC_CALL_STACK_SIZE).filter (fun i =>
            inp.public_call.public_call_data.call_stack_item.public_inputs.public_call_stack i
              == expected_hash prim inp i)).map (reconcile_message inp) ∧
      (new_reports composer (validate_this_public_call_stack prim composer inp)).length
        = (List.finRange K.PUBLIC_CALL_STACK_SIZE).countP (fun i =>
            inp.public_call.public_call_data.call_stack_item.public_inputs.public_call_stack i
              == expected_hash prim inp i) ∧
      (∀ i : Fin K.PUBLIC_CALL_STACK_SIZE,
        inp.public_call.public_call_data.call_stack_item.public_inputs.public_call_stack i = 0 →
          (new_reports composer (validate_this_public_call_stack prim composer inp)).countP
            (fun m => m.index == some i.val) = 1) ∧
      new_reports composer
          (validate_this_public_call_stack prim composer (inp.with_preimages preimages))
        = new_reports composer (validate_this_public_call_stack prim composer inp) := by
  have hnew := new_reports_validate_this_public_call_stack prim composer inp
  refine ⟨?_, ?_, hnew, ?_, fun i hi => ?_, ?_⟩
  · unfold validate_this_public_call_stack
    simp only [expected_hash, reconcile_message, beq_iff_eq]
  · rw [hnew]
    exact validate_this_public_call_stack_failure_msgs prim composer inp
  · rw [hnew, List.length_map, List.countP_eq_length_filter]
  · rw [hnew, countP_index_map_filter _ (reconcile_message inp) (fun _ => rfl) i]
    simp [expected_hash, hi]
  · rw [hnew, new_reports_validate_this_public_call_stack]
    have hexp : expected_hash prim (inp.with_preimages preimages) = expected_hash prim inp := by
      funext i
      by_cases hz :
          inp.public_call.public_call_data.call_stack_item.public_inputs.public_call_stack i = 0
      · simp [expected_hash, KernelInput.with_preimages, hz]
      · simp [expected_hash, KernelInput.with_preimages, hz, hpre i hz]
    rw [hexp]
    rfl

/-- C15, at a concrete input: changing the preimage at index 1 of `Example.input`,
where the call stack holds zero, from 0 to 55 leaves the two reports, for the
entries 0 and 1 that equal their calculated hash, as they are. -/
theorem validate_this_public_call_stack_asserts_witness :
    new_reports Example.composer
        (validate_this_public_call_stack Example.prim Example.composer
          (Example.input.with_preimages Example.other_preimages))
      = [Message.does_not_reconcile 0 8, Message.does_not_reconcile 1 0] :=
  (validate_this_public_call_stack_asserts Example.prim Example.composer Example.input
    Example.other_preimages (by decide)).2.2.2.2.2.trans (by decide)

/-- C16.  `update_public_end_values` changes at most `is_private`, the public data
tree root of the historic tree roots and the two arrays `end.public_call_stack`
and `end.state_transitions`: whether it succeeds or fails, every other member of
`end`, of `constants` and of the historic tree roots is as before the call. -/
theorem update_public_end_values_frame (prim : Primitives F P)
    (inp : KernelInput F P K) (A : KernelCircuitPublicInputs F X) :
    (update_public_end_values prim inp A).circuit_outputs.end_.other = A.end_.other ∧
      (update_public_end_values prim inp A).circuit_outputs.constants.other
        = A.constants.other ∧
      (update_public_end_values prim inp A).circuit_outputs.constants.historic_tree_roots.other
        = A.constants.historic_tree_roots.other ∧
      (update_public_end_values prim inp A).circuit_outputs
        = { end_ :=
            { public_call_stack :=
                (update_public_end_values prim inp A).circuit_outputs.end_.public_call_stack
              state_transitions :=
                (update_public_end_values prim inp A).circuit_outputs.end_.state_transitions
              other := A.end_.other }
            constants :=
            { historic_tree_roots :=
              { public_data_tree_root :=
                  (update_public_end_values prim inp
                    A).circuit_outputs.constants.historic_tree_roots.public_data_tree_root
                other := A.constants.historic_tree_roots.other }
              other := A.constants.other }
            is_private := (update_public_end_values prim inp A).circuit_outputs.is_private } := by
  rw [update_public_end_values_eq]
  split_ifs <;> exact ⟨rfl, rfl, rfl, rfl⟩

/-- C17.  The root recorded by accumulation is not the root validation checks
against.  The reports of `validate_state_reads` and of
`validate_state_transitions` are unchanged when only the historic public data tree
root of the public inputs is changed, and the result of
`update_public_end_values` is unchanged when only the public data tree root of the
call, the sibling paths and the call stack preimages are changed.  On
`Example.input` the membership checks of a non-empty read and a non-empty
transition pass against the root 3200 while the root written to the circuit
outputs is 500. -/
theorem recorded_root_is_not_checked_root (prim : Primitives F P)
    (composer : DummyComposer F) (inp : KernelInput F P K)
    (A : KernelCircuitPublicInputs F X) (historic_root root : F)
    (reads_paths : Fin K.STATE_READS_LENGTH → MembershipWitness F)
    (transitions_paths : Fin K.STATE_TRANSITIONS_LENGTH → MembershipWitness F)
    (preimages : Fin K.PUBLIC_CALL_STACK_SIZE → P) :
    new_reports composer
        (validate_state_reads prim composer
          (inp.with_historic_public_data_tree_root historic_root))
      = new_reports composer (validate_state_reads prim composer inp) ∧
    new_reports composer
        (validate_state_transitions prim composer
          (inp.with_historic_public_data_tree_root historic_root))
      = new_reports composer (validate_state_transitions prim composer inp) ∧
    update_public_end_values prim (inp.with_public_data_tree_root root) A
      = update_public_end_values prim inp A ∧
    update_public_end_values prim (inp.with_sibling_paths reads_paths transitions_paths) A
      = update_public_end_values prim inp A ∧
    update_public_end_values prim (inp.with_preimages preimages) A
      = update_public_end_values prim inp A ∧
    update_public_end_values prim
        (((inp.with_public_data_tree_root root).with_sibling_paths reads_paths
          transitions_paths).with_preimages preimages) A
      = update_public_end_values prim inp A ∧
    ((Example.input.public_call.public_call_data.call_stack_item.public_inputs.state_reads
          (0 : Fin 2)).is_empty = false ∧
      (Example.input.public_call.public_call_data.call_stack_item.public_inputs.state_transitions
          (0 : Fin 2)).is_empty = false ∧
      new_reports Example.composer
          (validate_function_execution Example.prim Example.composer Example.input) = [] ∧
      Example.input.public_call.public_data_tree_root = 3200 ∧
      (update_public_end_values Example.prim Example.input
          Example.outputs).circuit_outputs.constants.historic_tree_roots.public_data_tree_root
        = 500) := by
  refine ⟨rfl, rfl, rfl, rfl, rfl, rfl, ?_⟩
  decide

end Theorems

end PublicKernel
